import Mathlib

/-!
Verification of the story-generation orchestration engine (`Game.py`).

The external text-generation capability is modelled as a function
`gen : Nat → String → String → String` taking a global invocation counter,
the node's instruction and the supplied context, and returning the generated
text.  The counter is threaded through every definition so that distinct
invocations may return distinct results (covering the nondeterminism of the
external collaborator); the counter also measures how many generation calls
were made.  The structured-outline parser (`OutputParser.extract_struct`) is
an external collaborator and is modelled as a parameter
`po : String → String × List (String × String)` returning the title and the
ordered chapter directory.
-/

/-- Type of the external generator: invocation counter, instruction, context. -/
abbrev Gen := Nat → String → String → String

/-- An `ActionNode` as used by the pipeline: a key and an instruction.
The mutable `context`/`content` fields of the Python class are handled by
explicit argument/result passing. -/
structure ANode where
  key : String
  instruction : String
deriving DecidableEq

/-- Instruction text of the `STRUCT_WRITE` node (from `Game.py`). -/
def STRUCT_WRITE_INSTRUCTION : String :=
  "\n您现在是短篇小说领域经验丰富的小说作家, 我们需要您根据给定的小说题材生成故事的基本结构。\n按照以下内容输出符合给定题材的小说基本结构：\n标题:\"小说的标题\"\n设置:\"小说的情景设置细节，包括时间段、地点和所有相关背景信息\"\n主角:\"小说主角的名字、年龄、职业，以及他们的性格和动机、简要的描述\"\n反派角色:\"小说反派角色的名字、年龄、职业，以及他们的性格和动机、简要的描述\"\n冲突:\"小说故事的主要冲突，包括主角面临的问题和涉及的利害关系\"\n对话:\"以对话的形式描述情节，揭示人物，以此提供一些提示给读者\"\n主题:\"小说中心主题，并说明如何在整个情节、角色和背景中展开\"\n基调:\"整体故事的基调，以及保持背景和人物的一致性和适当性的说明\"\n节奏:\"调节故事节奏以建立和释放紧张气氛，推进情节，创造戏剧效果的说明\"\n其它:\"任何额外的细节或对故事的要求，如特定的字数或题材限制\"\n"

/-- Instruction text of the `DIRECTORY_WRITE` node (from `Game.py`). -/
def DIRECTORY_WRITE_INSTRUCTION : String :=
  "\n您现在是短篇小说领域经验丰富的小说作家。我们需要您根据context的内容创作出小说的目录和章节内容概况。\n请按照以下要求提供该小说的具体目录和目录中的故事概况：\n1. 输出必须严格符合指定语言。\n2. 回答必须严格按照字典格式，如: \x7b\"title\": \"xxx\", \"directory\": \x7b\"第一章：章节标题\": \"故事概况\", \"第二章：章节标题\": \"故事概况\"\x7d\x7d 。\n3. 目录应尽可能引人注目和充分，包括一级目录和本章故事概况。\n4. 不要有额外的空格或换行符。\n"

/-- The `STRUCT_WRITE` ActionNode. -/
def STRUCT_WRITE : ANode :=
  { key := "Struct Write", instruction := STRUCT_WRITE_INSTRUCTION }

/-- The `DIRECTORY_WRITE` ActionNode. -/
def DIRECTORY_WRITE : ANode :=
  { key := "Directory Write", instruction := DIRECTORY_WRITE_INSTRUCTION }

/-- The `STORY_WRITE` ActionNode. -/
def STORY_WRITE : ANode :=
  { key := "Story Write", instruction := "您现在是短篇小说领域经验丰富的小说作家。我们需要您创作出小说详细内容。" }

/-- `simple_fill`: one invocation of the external generator on the node's
instruction and the node's context; returns the produced content and the
advanced invocation counter. -/
def simple_fill (gen : Gen) (k : Nat) (node : ANode) (ctx : String) : String × Nat :=
  (gen k node.instruction ctx, k + 1)

/-- The `strgy == "complex"` branch of `fill` in `OUTLINE_WRITE_NODES` /
`CONTENT_WRITE_NODES`: the incoming context is the first child's context,
each child is simple-filled, each child's content becomes the next child's
context, and the parent's content is the last assignment of `child_context`
(for an empty children set this is the incoming context, passed through
unchanged, since the loop body never runs and no error is raised). -/
def complexFillGo (gen : Gen) : List ANode → String → Nat → String × Nat
  | [], ctx, k => (ctx, k)
  | c :: cs, ctx, k =>
    let r := simple_fill gen k c ctx
    complexFillGo gen cs r.1 r.2

/-- Instrumented trace of a complex fill: for each child, in visiting order,
the child's key, the context it was invoked with, and the content it
produced.  Purely observational: it performs exactly the calls of
`complexFillGo`. -/
def complexFillSteps (gen : Gen) : List ANode → String → Nat → List (String × String × String)
  | [], _, _ => []
  | c :: cs, ctx, k =>
    (c.key, ctx, gen k c.instruction ctx) :: complexFillSteps gen cs (gen k c.instruction ctx) (k + 1)

/-- Whether the character list `pat` is an initial segment of `s`. -/
def leadsWith : List Char → List Char → Bool
  | [], _ => true
  | _ :: _, [] => false
  | p :: ps, c :: cs => p == c && leadsWith ps cs

/-- Whether `pat` occurs contiguously somewhere in `s`. -/
def hasSubList (pat : List Char) : List Char → Bool
  | [] => leadsWith pat []
  | c :: rest => leadsWith pat (c :: rest) || hasSubList pat rest

/-- Embedding of Python `s.find(pat) != -1`: `pat` occurs in `s`. -/
def strContains (s pat : String) : Bool :=
  hasSubList pat.data s.data

/-- The acceptance test of the retry loop in `WriteContent.run`, exactly as
written in the source: `resp.find("无法满足") == -1 or resp.find("无法完成") == -1`,
i.e. the attempt is accepted when at least one of the two failure markers is
absent. -/
def acceptResp (resp : String) : Bool :=
  !(strContains resp "无法满足") || !(strContains resp "无法完成")

/-- `DIRECTORY_PROMPT.format(topic=..., language=...)` from
`WriteStoryStruct.run`. -/
def DIRECTORY_PROMPT_fmt (topic language : String) : String :=
  "\n        小说的题材是" ++ topic ++ "。请严格使用" ++ language ++ "语言，并按照instruction中的说明内容输出内容\n        "

/-- `CONTENT_PROMPT.format(topic=..., language=..., content=...)` from
`WriteContent.run`.  The template has fields for `topic` and `content` only;
the `language` keyword argument is supplied to `format` but the template has
no corresponding field, so (as in Python, where unused keyword arguments of
`format` are ignored) the result does not depend on it. -/
def CONTENT_PROMPT_fmt (topic language content : String) : String :=
  "\n        您现在是短篇小说领域经验丰富的小说作家。请以引人入胜的风格，深入细致地按照故事概况\"" ++ content ++ "\"写出故事内容，注意与上一章故事内容的衔接。\n        上一章故事内容为" ++ topic ++ "。\n        "

/-- The `while n < 5` retry loop of `WriteContent.run`.  The Python loop
counts attempts upward with `n`; here `rem` is the number of further
attempts still allowed after the current one (`rem = 4 - n`), so the loop is
entered with `rem = 4` and each iteration performs one complex fill of the
single-child `CONTENT_WRITE_NODES` pipeline.  An attempt is kept when
`acceptResp` holds or when no attempts remain. -/
def writeContent_go (gen : Gen) (prompt : String) : Nat → Nat → String × Nat
  | 0, k =>
    let r := complexFillGo gen [STORY_WRITE] prompt k
    (r.1, r.2)
  | rem + 1, k =>
    let r := complexFillGo gen [STORY_WRITE] prompt k
    if acceptResp r.1 then (r.1, r.2) else writeContent_go gen prompt rem r.2

/-- `WriteContent.run`: builds the content prompt, runs the retry loop
(up to 5 attempts), and prepends the chapter heading
(`f"## {self.directory}\n\n{resp}"`) to the accepted response. -/
def WriteContent_run (gen : Gen) (language directory content topic : String) (k : Nat) :
    String × Nat :=
  let prompt := CONTENT_PROMPT_fmt topic language content
  let r := writeContent_go gen prompt 4 k
  ("## " ++ directory ++ "\n\n" ++ r.1, r.2)

/-- `WriteStoryStruct.run`: builds the directory prompt, runs the two-child
outline pipeline (`STRUCT_WRITE` then `DIRECTORY_WRITE`) in complex mode,
and hands the final content to the external structured parser `po`
(`OutputParser.extract_struct`), which yields the title and the ordered
chapter directory. -/
def WriteStoryStruct_run (gen : Gen) (po : String → String × List (String × String))
    (language topic : String) (k : Nat) : (String × List (String × String)) × Nat :=
  let prompt := DIRECTORY_PROMPT_fmt topic language
  let r := complexFillGo gen [STRUCT_WRITE, DIRECTORY_WRITE] prompt k
  (po r.1, r.2)

/-- Embedding of the Python expression `s[-100]` (with `i = 100`): the
single character at position `length - i`, as a one-character string.  It is
only ever used under the guard `s.length > 100`, which makes the index
valid; the default character of `headD` is never reached there. -/
def pyNegIndex (s : String) (i : Nat) : String :=
  String.mk [(s.data.drop (s.data.length - i)).headD ' ']

/-- The context (`topic` argument) computed for a chapter task in
`StoryAssistant._act`: for the first chapter (`content_count = 1`) the main
title; afterwards the most recent memory entry, replaced by the single
character `msg.content[-100]` when the entry is longer than 100 characters. -/
def chapterTopic (mainTitle prev : String) (cc : Nat) : String :=
  if cc > 1 then (if prev.length > 100 then pyNegIndex prev 100 else prev) else mainTitle

/-- A `GenerationTask`: the role's action list holds either the outline
action (`WriteStoryStruct`) or a chapter action (`WriteContent` with its
heading and summary). -/
inductive GTask where
  | outline (language : String)
  | chapter (language directory content : String)
deriving DecidableEq

/-- The mutable state of the `StoryAssistant` role: its action list, the
cursor (`rc.state`), the selected action (`rc.todo`), the message memory
(`rc.memory`, as the list of message contents in arrival order), the
accumulated document, the main title, and the chapter counter. -/
structure RoleSt where
  language : String
  actions : List GTask
  stateIdx : Nat
  todo : Option GTask
  memory : List String
  totalContent : String
  mainTitle : String
  contentCount : Nat
  topic : String

/-- `_set_state(i)`: set the cursor and select the action at index `i`. -/
def set_state (st : RoleSt) (i : Nat) : RoleSt :=
  { st with stateIdx := i, todo := st.actions[i]? }

/-- `StoryAssistant._think`: if nothing is selected, select index 0;
otherwise advance the cursor if `stateIdx + 1` is in bounds, else clear the
selection. -/
def think (st : RoleSt) : RoleSt :=
  match st.todo with
  | none => set_state st 0
  | some _ =>
    if st.stateIdx + 1 < st.actions.length then set_state st (st.stateIdx + 1)
    else { st with todo := none }

/-- The directory-summary string built by `StoryAssistant._handle_directory`:
the main title, then one `"- heading\n"` line per directory entry. -/
def dirSummary (title : String) (dir : List (String × String)) : String :=
  dir.foldl (fun acc p => acc ++ "- " ++ p.1 ++ "\n") (title ++ "\n")

/-- `StoryAssistant._handle_directory`: record the main title, append
`"# {main_title}"` to the document, replace the action list with one
`WriteContent` per directory entry (in directory order), clear the
selection, and return the directory-summary message. -/
def handle_directory (st : RoleSt) (title : String) (dir : List (String × String)) :
    RoleSt × String :=
  ({ st with
      mainTitle := title,
      totalContent := st.totalContent ++ "# " ++ title,
      actions := dir.map (fun p => GTask.chapter st.language p.1 p.2),
      todo := none },
    dirSummary title dir)

/-- `StoryAssistant._act` for the currently selected action.  Returns the
new state, the `topic` argument that was passed to the action's `run`
(recorded for observation), the message produced, and the advanced
generation counter.  The outline action fetches the most recent memory entry
as topic, runs `WriteStoryStruct.run`, and hands the parsed result to
`_handle_directory` (its message is not appended to memory nor to the
document).  A chapter action increments `content_count`, computes its topic
with `chapterTopic`, runs `WriteContent.run`, appends the result to the
document (with a `"\n\n\n"` separator when the document is nonempty) and to
memory. -/
def act (gen : Gen) (po : String → String × List (String × String))
    (st : RoleSt) (k : Nat) : RoleSt × String × String × Nat :=
  match st.todo with
  | none => (st, "", "", k)
  | some (GTask.outline lang) =>
    let topicMsg := st.memory.getLastD ""
    let r := WriteStoryStruct_run gen po lang topicMsg k
    let hd := handle_directory { st with topic := topicMsg } r.1.1 r.1.2
    (hd.1, topicMsg, hd.2, r.2)
  | some (GTask.chapter lang directory content) =>
    let cc := st.contentCount + 1
    let prev := st.memory.getLastD ""
    let tpc := chapterTopic st.mainTitle prev cc
    let r := WriteContent_run gen lang directory content tpc k
    ({ st with
        contentCount := cc,
        totalContent :=
          if st.totalContent ≠ "" then st.totalContent ++ "\n\n\n" ++ r.1
          else st.totalContent ++ r.1,
        memory := st.memory ++ [r.1] },
      tpc, r.1, r.2)

/-- The `while True` loop of `StoryAssistant._react`: run `_think`; stop
when nothing is selected, otherwise run `_act` and continue.  `fuel` bounds
the number of iterations (the loop itself has no bound; `none` means the
supplied fuel was exhausted before the loop finished, and the run theorems
show that `N + 2` iterations always complete the run for a directory of `N`
entries).  The returned trace records, per executed action, the task, the
topic passed to its `run`, and the message it produced. -/
def reactLoop (gen : Gen) (po : String → String × List (String × String)) :
    Nat → RoleSt → Nat → List (GTask × String × String) →
    Option (RoleSt × List (GTask × String × String) × Nat)
  | 0, _, _, _ => none
  | fuel + 1, st, k, tr =>
    let st1 := think st
    match st1.todo with
    | none => some (st1, tr, k)
    | some t =>
      let r := act gen po st1 k
      reactLoop gen po fuel r.1 r.2.2.2 (tr ++ [(t, r.2.1, r.2.2.1)])

/-- The role state at the start of the run: the action list holds the single
`WriteStoryStruct` action, nothing is selected, and memory holds the user's
topic message (put there by the entry point before the loop starts). -/
def initSt (language topicMsg : String) : RoleSt :=
  { language := language, actions := [GTask.outline language], stateIdx := 0, todo := none,
    memory := [topicMsg], totalContent := "", mainTitle := "", contentCount := 0, topic := "" }

/-- Reference computation of the chapter phase: executes the directory
entries in order, threading `prevEntry` (the most recent memory entry) and
the chapter counter `cc`, and records per chapter the task, the topic passed
to it, and the formatted message it produced. -/
def chaptersRun (gen : Gen) (language mainTitle : String) :
    List (String × String) → String → Nat → Nat → List (GTask × String × String) × Nat
  | [], _, _, k => ([], k)
  | p :: rest, prevEntry, cc, k =>
    let tpc := chapterTopic mainTitle prevEntry cc
    let r := WriteContent_run gen language p.1 p.2 tpc k
    let rs := chaptersRun gen language mainTitle rest r.1 (cc + 1) r.2
    ((GTask.chapter language p.1 p.2, tpc, r.1) :: rs.1, rs.2)

/-- The parsed outline of a run: title and directory. -/
def outlineOf (gen : Gen) (po : String → String × List (String × String))
    (language topicMsg : String) (k : Nat) : String × List (String × String) :=
  (WriteStoryStruct_run gen po language topicMsg k).1

/-- The chapter directory produced by the outline stage of a run. -/
def outlineDir (gen : Gen) (po : String → String × List (String × String))
    (language topicMsg : String) (k : Nat) : List (String × String) :=
  (outlineOf gen po language topicMsg k).2

/-- The chapter-phase trace of a run: starts at `content_count = 1` with the
topic message as the most recent memory entry and the generation counter
left by the outline stage. -/
def runChapters (gen : Gen) (po : String → String × List (String × String))
    (language topicMsg : String) (k : Nat) : List (GTask × String × String) × Nat :=
  chaptersRun gen language (outlineOf gen po language topicMsg k).1
    (outlineDir gen po language topicMsg k) topicMsg 1 (WriteStoryStruct_run gen po language topicMsg k).2

/-- A complete run from the initial state, with fuel `N + 2` for a
directory of `N` entries. -/
def fullRun (gen : Gen) (po : String → String × List (String × String))
    (language topicMsg : String) (k : Nat) :
    Option (RoleSt × List (GTask × String × String) × Nat) :=
  reactLoop gen po ((outlineDir gen po language topicMsg k).length + 2)
    (initSt language topicMsg) k []

/-- Default trace entry, for `List.getD` on traces. -/
def trDflt : GTask × String × String := (GTask.outline "", "", "")

/-- A generator used by concrete witnesses: echoes a fixed short answer. -/
def genB : Gen := fun _ _ _ => "B"

/-- A parser used by concrete witnesses: a fixed title and a two-entry
directory. -/
def poDemo : String → String × List (String × String) :=
  fun _ => ("总标题", [("第一章", "概况一"), ("第二章", "概况二")])

/-- Two demo leaves for the pipeline-threading witness. -/
def demoChildren : List ANode :=
  [{ key := "L1", instruction := "I1" }, { key := "L2", instruction := "I2" }]

/-- A demo generator for the pipeline-threading witness: answers "A" to the
first instruction and "B" otherwise. -/
def genAB : Gen := fun _ ins _ => if ins = "I1" then "A" else "B"

/-- A 150-character string: 50 times 'a', one 'b', 99 times 'c'.  Its
single character at offset `-100` (Python indexing) is the 'b'. -/
def prev150 : String :=
  String.mk (List.replicate 50 'a' ++ 'b' :: List.replicate 99 'c')

set_option maxRecDepth 8000

/-- If `pat` starts `s` extended by anything, `leadsWith` holds. -/
theorem leadsWith_append_self (pat suf : List Char) : leadsWith pat (pat ++ suf) = true := by
  induction pat with
  | nil => rfl
  | cons p ps ih => simp [leadsWith, ih]

/-- An occurrence at the front is an occurrence. -/
theorem hasSubList_of_leadsWith (pat s : List Char) (h : leadsWith pat s = true) :
    hasSubList pat s = true := by
  cases s with
  | nil => simpa [hasSubList] using h
  | cons c rest => simp [hasSubList, h]

/-- Occurrences survive prefixing. -/
theorem hasSubList_append_right (pat pre s : List Char) (h : hasSubList pat s = true) :
    hasSubList pat (pre ++ s) = true := by
  induction pre with
  | nil => simpa using h
  | cons c cs ih => simp [hasSubList, ih]

/-- `pat` occurs in `pat ++ suf`. -/
theorem hasSubList_self_append (pat suf : List Char) : hasSubList pat (pat ++ suf) = true :=
  hasSubList_of_leadsWith _ _ (leadsWith_append_self pat suf)

/-- A string is found inside any concatenation that embeds it literally. -/
theorem strContains_embed (pre mid suf : String) :
    strContains (pre ++ (mid ++ suf)) mid = true := by
  show hasSubList mid.data (pre ++ (mid ++ suf)).data = true
  rw [String.data_append, String.data_append]
  exact hasSubList_append_right _ _ _ (hasSubList_self_append _ _)

/-- The keys of a complex-fill trace are the children's keys, in insertion
order. -/
theorem complexFillSteps_keys (gen : Gen) :
    ∀ (cs : List ANode) (ctx : String) (k : Nat),
      (complexFillSteps gen cs ctx k).map (fun e => e.1) = cs.map ANode.key := by
  intro cs
  induction cs with
  | nil => intro ctx k; rfl
  | cons c cs ih => intro ctx k; simp [complexFillSteps, ih]

/-- The trace has one entry per child. -/
theorem complexFillSteps_length (gen : Gen) :
    ∀ (cs : List ANode) (ctx : String) (k : Nat),
      (complexFillSteps gen cs ctx k).length = cs.length := by
  intro cs
  induction cs with
  | nil => intro ctx k; rfl
  | cons c cs ih => intro ctx k; simp [complexFillSteps, ih]

/-- The first child of a complex fill receives the incoming context. -/
theorem complexFillSteps_head_ctx (gen : Gen) :
    ∀ (cs : List ANode) (ctx : String) (k : Nat), cs ≠ [] →
      ((complexFillSteps gen cs ctx k).getD 0 ("", "", "")).2.1 = ctx := by
  intro cs ctx k h
  cases cs with
  | nil => exact absurd rfl h
  | cons c cs => rfl

/-- Each later child of a complex fill receives the content produced by the
immediately preceding child. -/
theorem complexFillSteps_chain (gen : Gen) :
    ∀ (cs : List ANode) (ctx : String) (k : Nat) (i : Nat),
      i + 1 < (complexFillSteps gen cs ctx k).length →
      ((complexFillSteps gen cs ctx k).getD (i + 1) ("", "", "")).2.1 =
        ((complexFillSteps gen cs ctx k).getD i ("", "", "")).2.2 := by
  intro cs
  induction cs with
  | nil => intro ctx k i h; simp [complexFillSteps] at h
  | cons c cs ih =>
    intro ctx k i h
    cases i with
    | zero =>
      simp only [complexFillSteps, List.length_cons] at h ⊢
      have hne : cs ≠ [] := by
        intro hh
        subst hh
        simp [complexFillSteps] at h
      simpa [List.getD] using
        complexFillSteps_head_ctx gen cs (gen k c.instruction ctx) (k + 1) hne
    | succ j =>
      simp only [complexFillSteps, List.length_cons] at h ⊢
      simpa [List.getD] using
        ih (gen k c.instruction ctx) (k + 1) j (by simpa [List.getD] using Nat.lt_of_succ_lt_succ h)

/-- The parent's content after a complex fill is the last child's content
(or the incoming context when there is no child). -/
theorem complexFillGo_last (gen : Gen) :
    ∀ (cs : List ANode) (ctx : String) (k : Nat),
      (complexFillGo gen cs ctx k).1 =
        ((complexFillSteps gen cs ctx k).map (fun e => e.2.2)).getLastD ctx := by
  intro cs
  induction cs with
  | nil => intro ctx k; rfl
  | cons c cs ih =>
    intro ctx k
    simp only [complexFillGo, complexFillSteps, simple_fill, List.map_cons, List.getLastD_cons]
    exact ih (gen k c.instruction ctx) (k + 1)

/-- C3 counterexample: in complex mode, a node with an empty children set
does not fail — `complexFillGo` returns normally with the node's content
equal to the passed-in context (a passthrough) and the invocation counter
unchanged (no generator call, no configuration error is raised anywhere in
the `strgy == "complex"` branch).  This refutes the claim that such a fill
"fails with a configuration error rather than returning content". -/
theorem claim_C3_cex : complexFillGo genB [] "顶层上下文" 7 = ("顶层上下文", 7) := by decide

/-- C3 (amended): in complex-strategy fill, a node whose children set is
empty raises no error: the fill succeeds, sets the parent's content to the
passed-in context (passthrough) and performs no generator invocation. -/
theorem claim_C3 : ∀ (gen : Gen) (ctx : String) (k : Nat),
    complexFillGo gen [] ctx k = (ctx, k) := by
  intro gen ctx k; rfl

/-- C4: in every complex-strategy fill with children, the children are
visited in insertion order (the trace keys equal the children's keys in
order), the first child receives the task-level context, each subsequent
child receives the immediately preceding child's content as its context,
and the parent's final content equals the last child's content. -/
theorem claim_C4 (gen : Gen) (cs : List ANode) (ctx : String) (k i : Nat)
    (hcs : cs ≠ []) (hi : i + 1 < (complexFillSteps gen cs ctx k).length) :
    (complexFillSteps gen cs ctx k).map (fun e => e.1) = cs.map ANode.key
    ∧ ((complexFillSteps gen cs ctx k).getD 0 ("", "", "")).2.1 = ctx
    ∧ ((complexFillSteps gen cs ctx k).getD (i + 1) ("", "", "")).2.1 =
        ((complexFillSteps gen cs ctx k).getD i ("", "", "")).2.2
    ∧ (complexFillGo gen cs ctx k).1 =
        ((complexFillSteps gen cs ctx k).map (fun e => e.2.2)).getLastD ctx :=
  ⟨complexFillSteps_keys gen cs ctx k,
   complexFillSteps_head_ctx gen cs ctx k hcs,
   complexFillSteps_chain gen cs ctx k i hi,
   complexFillGo_last gen cs ctx k⟩

/-- Witness for C4 at the spec's two-leaf example: generator outputs "A"
then "B"; leaf 2 is invoked with context "A" and the final content is "B". -/
theorem claim_C4_witness :
    (demoChildren ≠ [] ∧ 0 + 1 < (complexFillSteps genAB demoChildren "T" 0).length)
    ∧ ((complexFillSteps genAB demoChildren "T" 0).map (fun e => e.1) = demoChildren.map ANode.key
       ∧ ((complexFillSteps genAB demoChildren "T" 0).getD 0 ("", "", "")).2.1 = "T"
       ∧ ((complexFillSteps genAB demoChildren "T" 0).getD (0 + 1) ("", "", "")).2.1 =
           ((complexFillSteps genAB demoChildren "T" 0).getD 0 ("", "", "")).2.2
       ∧ (complexFillGo genAB demoChildren "T" 0).1 =
           ((complexFillSteps genAB demoChildren "T" 0).map (fun e => e.2.2)).getLastD "T") :=
  ⟨⟨by decide, by decide⟩, claim_C4 genAB demoChildren "T" 0 0 (by decide) (by decide)⟩

/-- C1: evaluation of `WriteContent.run` at a generator that always answers
a text containing the "无法满足" (cannot-fulfill) marker but not the
"无法完成" (cannot-complete) marker: the attempt is accepted immediately
(one single generator invocation, counter 0 → 1) even though a failure
marker is present, because the source's condition
`resp.find("无法满足") == -1 or resp.find("无法完成") == -1` is true as soon
as either marker is absent.  The claim (and the spec's stated intent) says
such an attempt must be retried.  Conversely, when both markers are present
the loop really retries and exhausts all 5 attempts (last conjunct). -/
theorem claim_C1_eval :
    WriteContent_run (fun _ _ _ => "抱歉，无法满足该要求") "Chinese" "第一章" "概况" "题目" 0
      = ("## 第一章\n\n抱歉，无法满足该要求", 1)
    ∧ strContains "抱歉，无法满足该要求" "无法满足" = true
    ∧ strContains "抱歉，无法满足该要求" "无法完成" = false
    ∧ (WriteContent_run (fun _ _ _ => "既无法满足也无法完成") "Chinese" "第一章" "概况" "题目" 0).2 = 5 := by
  refine ⟨by decide, by decide, by decide, by decide⟩

/-- C8: the retry loop of `WriteContent.run` performs at least one and at
most 5 generator invocations (the invocation counter advances by at least 1
and at most 5), for every generator behaviour; the loop is a total function,
so it always terminates. -/
theorem claim_C8 : ∀ (gen : Gen) (language directory content topic : String) (k : Nat),
    k < (WriteContent_run gen language directory content topic k).2
    ∧ (WriteContent_run gen language directory content topic k).2 ≤ k + 5 := by
  have key : ∀ (gen : Gen) (prompt : String) (rem k : Nat),
      k < (writeContent_go gen prompt rem k).2
      ∧ (writeContent_go gen prompt rem k).2 ≤ k + rem + 1 := by
    intro gen prompt rem
    induction rem with
    | zero => intro k; exact ⟨Nat.lt_succ_self k, Nat.le_refl _⟩
    | succ rem ih =>
      intro k
      have hk : (complexFillGo gen [STORY_WRITE] prompt k).2 = k + 1 := rfl
      simp only [writeContent_go]
      split
      · exact ⟨by omega, by omega⟩
      · have hih := ih (complexFillGo gen [STORY_WRITE] prompt k).2
        exact ⟨by omega, by omega⟩
  intro gen language directory content topic k
  have hgo := key gen (CONTENT_PROMPT_fmt topic language content) 4 k
  have hr : (WriteContent_run gen language directory content topic k).2
      = (writeContent_go gen (CONTENT_PROMPT_fmt topic language content) 4 k).2 := rfl
  exact ⟨by omega, by omega⟩

/-- C2: evaluation of the chapter-context computation at a previous memory
entry of length 150 (50 'a', one 'b', 99 'c').  The source computes
`msg.content[-100]`, the single character at offset −100 — here the
one-character string "b" — not the last-100-character suffix (which is "b"
followed by 99 'c', second conjunct).  The claim (and the source's own
comment, "取的是上章内容最后100个字符") says the last 100 characters. -/
theorem claim_C2_eval :
    prev150.length = 150
    ∧ chapterTopic "主标题" prev150 2 = "b"
    ∧ (chapterTopic "主标题" prev150 2).length = 1
    ∧ String.mk (prev150.data.drop 50) ≠ chapterTopic "主标题" prev150 2 := by
  refine ⟨by decide, by decide, by decide, by decide⟩

/-- C6 counterexample: the chapter prompt and the entire `WriteContent.run`
result are unchanged when the language argument changes, because
`CONTENT_PROMPT` has no `language` field — refuting "the built prompt
depends on the language argument". -/
theorem claim_C6_cex :
    CONTENT_PROMPT_fmt "上一章结尾" "English" "本章概况"
      = CONTENT_PROMPT_fmt "上一章结尾" "Chinese" "本章概况"
    ∧ WriteContent_run genB "English" "第一章" "概况" "题目" 0
      = WriteContent_run genB "Chinese" "第一章" "概况" "题目" 0 :=
  ⟨rfl, rfl⟩

/-- C6 (amended): the context given to the chapter pipeline is a rendering
of the previous context (`topic`) and the chapter summary (`content`) only —
both occur verbatim in the prompt — and it does not depend on the language
argument: `WriteContent.run` yields identical results for any two
languages. -/
theorem claim_C6 : ∀ (gen : Gen) (l1 l2 directory content topic : String) (k : Nat),
    WriteContent_run gen l1 directory content topic k
      = WriteContent_run gen l2 directory content topic k
    ∧ strContains (CONTENT_PROMPT_fmt topic l1 content) topic = true
    ∧ strContains (CONTENT_PROMPT_fmt topic l1 content) content = true := by
  intro gen l1 l2 directory content topic k
  refine ⟨rfl, ?_, ?_⟩
  · simp only [strContains, CONTENT_PROMPT_fmt, String.data_append, List.append_assoc]
    exact hasSubList_append_right _ _ _ (hasSubList_append_right _ _ _
      (hasSubList_append_right _ _ _ (hasSubList_self_append _ _)))
  · simp only [strContains, CONTENT_PROMPT_fmt, String.data_append, List.append_assoc]
    exact hasSubList_append_right _ _ _ (hasSubList_self_append _ _)

/-- A concatenation whose middle part is a nonempty literal is nonempty. -/
theorem append3_ne_empty (a b c : String) (hb : b.data ≠ []) : a ++ b ++ c ≠ "" := by
  intro h
  have hd : (a ++ b).data ++ c.data = [] := by
    have := congrArg String.data h
    simpa [String.data_append] using this
  have hab : (a ++ b).data = [] := (List.append_eq_nil.mp hd).1
  rw [String.data_append] at hab
  exact hb (List.append_eq_nil.mp hab).2

/-- The chapter phase of the react loop.  Entered just after a chapter
action has executed: the executed chapters are `d ++ [cur]`, the cursor
points at `cur`, the remaining directory suffix is `rest`.  The loop
finishes within `rest.length + 1` iterations, the trace extends by exactly
the `chaptersRun` reference trace of `rest`, memory extends by exactly the
produced chapter messages, the action list is never changed again, and the
selection ends cleared. -/
theorem reactLoop_chapters (gen : Gen) (po : String → String × List (String × String))
    (lang mt tp : String) :
    ∀ (rest d : List (String × String)) (cur : String × String)
      (mem : List String) (tc : String) (k : Nat) (tr : List (GTask × String × String)),
      tc ≠ "" →
      ∃ stf : RoleSt,
        reactLoop gen po (rest.length + 1)
          { language := lang,
            actions := (d ++ cur :: rest).map (fun p => GTask.chapter lang p.1 p.2),
            stateIdx := d.length,
            todo := some (GTask.chapter lang cur.1 cur.2),
            memory := mem, totalContent := tc, mainTitle := mt,
            contentCount := d.length + 1, topic := tp } k tr
          = some (stf,
              tr ++ (chaptersRun gen lang mt rest (mem.getLastD "") (d.length + 2) k).1,
              (chaptersRun gen lang mt rest (mem.getLastD "") (d.length + 2) k).2)
        ∧ stf.memory =
            mem ++ (chaptersRun gen lang mt rest (mem.getLastD "") (d.length + 2) k).1.map
              (fun e => e.2.2)
        ∧ stf.actions = (d ++ cur :: rest).map (fun p => GTask.chapter lang p.1 p.2)
        ∧ stf.todo = none
        ∧ stf.mainTitle = mt := by
  intro rest
  induction rest with
  | nil =>
    intro d cur mem tc k tr htc
    refine ⟨{ language := lang,
              actions := (d ++ [cur]).map (fun p => GTask.chapter lang p.1 p.2),
              stateIdx := d.length,
              todo := none,
              memory := mem, totalContent := tc, mainTitle := mt,
              contentCount := d.length + 1, topic := tp }, ?_, ?_, ?_, ?_, ?_⟩
    · show reactLoop gen po 1 _ k tr = _
      rw [reactLoop]
      simp only [think]
      rw [if_neg (by simp)]
      simp [chaptersRun]
    · simp [chaptersRun]
    · rfl
    · rfl
    · rfl
  | cons r0 rest ih =>
    intro d cur mem tc k tr htc
    have hsel : ((d ++ cur :: r0 :: rest).map (fun p => GTask.chapter lang p.1 p.2))[d.length + 1]?
        = some (GTask.chapter lang r0.1 r0.2) := by
      rw [List.getElem?_map, List.getElem?_append_right (by omega)]
      simp
    have hlt : d.length + 1 < ((d ++ cur :: r0 :: rest).map (fun p => GTask.chapter lang p.1 p.2)).length := by
      simp
    set tpc := chapterTopic mt (mem.getLastD "") (d.length + 2) with htpc
    set r := WriteContent_run gen lang r0.1 r0.2 tpc k with hrdef
    have htc2 : tc ++ "\n\n\n" ++ r.1 ≠ "" := append3_ne_empty tc "\n\n\n" r.1 (by decide)
    obtain ⟨stf, heq, hmem, hact, htodo, hmt⟩ :=
      ih (d ++ [cur]) r0 (mem ++ [r.1]) (tc ++ "\n\n\n" ++ r.1) r.2
        (tr ++ [(GTask.chapter lang r0.1 r0.2, tpc, r.1)]) htc2
    simp only [List.append_assoc, List.singleton_append, List.length_append,
      List.length_singleton, List.getLastD_concat] at heq hmem hact
    refine ⟨stf, ?_, ?_, ?_, htodo, hmt⟩
    · show reactLoop gen po ((r0 :: rest).length + 1) _ k tr = _
      rw [show (r0 :: rest).length + 1 = (rest.length + 1) + 1 from by simp]
      rw [reactLoop]
      simp only [think]
      rw [if_pos hlt]
      simp only [set_state]
      rw [hsel]
      simp only [act]
      rw [if_pos htc]
      rw [show chaptersRun gen lang mt (r0 :: rest) (mem.getLastD "") (d.length + 2) k
          = ((GTask.chapter lang r0.1 r0.2, tpc, r.1)
              :: (chaptersRun gen lang mt rest r.1 (d.length + 3) r.2).1,
             (chaptersRun gen lang mt rest r.1 (d.length + 3) r.2).2) from rfl]
      exact heq
    · rw [show chaptersRun gen lang mt (r0 :: rest) (mem.getLastD "") (d.length + 2) k
          = ((GTask.chapter lang r0.1 r0.2, tpc, r.1)
              :: (chaptersRun gen lang mt rest r.1 (d.length + 3) r.2).1,
             (chaptersRun gen lang mt rest r.1 (d.length + 3) r.2).2) from rfl]
      exact hmem
    · exact hact

/-- The complete run: one outline execution first (its directory-summary
message is not appended to memory), then one chapter execution per directory
entry, in directory order, the whole loop finishing within `N + 2`
iterations; the trace is the outline entry followed by the `chaptersRun`
reference trace, memory ends as the topic message followed by exactly the
chapter messages, the final action list is the chapter list installed by
`_handle_directory`, and the selection ends cleared. -/
theorem reactLoop_run (gen : Gen) (po : String → String × List (String × String))
    (lang tm : String) (k : Nat)
    (hdir : (WriteStoryStruct_run gen po lang tm k).1.2 ≠ []) :
    ∃ stf : RoleSt,
      fullRun gen po lang tm k
        = some (stf,
            (GTask.outline lang, tm,
              dirSummary (WriteStoryStruct_run gen po lang tm k).1.1
                (WriteStoryStruct_run gen po lang tm k).1.2)
              :: (runChapters gen po lang tm k).1,
            (runChapters gen po lang tm k).2)
      ∧ stf.memory = tm :: (runChapters gen po lang tm k).1.map (fun e => e.2.2)
      ∧ stf.actions = (WriteStoryStruct_run gen po lang tm k).1.2.map
          (fun p => GTask.chapter lang p.1 p.2)
      ∧ stf.todo = none
      ∧ stf.mainTitle = (WriteStoryStruct_run gen po lang tm k).1.1 := by
  obtain ⟨dir0, dirRest, hdirEq⟩ := List.exists_cons_of_ne_nil hdir
  simp only [fullRun, runChapters, outlineDir, outlineOf]
  rw [hdirEq]
  rw [show reactLoop gen po ((dir0 :: dirRest).length + 2) (initSt lang tm) k []
      = reactLoop gen po ((dir0 :: dirRest).length + 1)
          { language := lang,
            actions := (WriteStoryStruct_run gen po lang tm k).1.2.map
              (fun p => GTask.chapter lang p.1 p.2),
            stateIdx := 0, todo := none, memory := [tm],
            totalContent := "" ++ "# " ++ (WriteStoryStruct_run gen po lang tm k).1.1,
            mainTitle := (WriteStoryStruct_run gen po lang tm k).1.1,
            contentCount := 0, topic := tm }
          (WriteStoryStruct_run gen po lang tm k).2
          [(GTask.outline lang, tm,
            dirSummary (WriteStoryStruct_run gen po lang tm k).1.1
              (WriteStoryStruct_run gen po lang tm k).1.2)] from rfl]
  rw [hdirEq]
  rw [show (dir0 :: dirRest).length + 1 = (dirRest.length + 1) + 1 from rfl]
  rw [reactLoop]
  simp only [think, set_state, List.map_cons, List.getElem?_cons_zero]
  simp only [act]
  rw [if_pos (append3_ne_empty "" "# " (WriteStoryStruct_run gen po lang tm k).1.1 (by decide))]
  obtain ⟨stf, heq, hmem, hact, htodo, hmt⟩ :=
    reactLoop_chapters gen po lang (WriteStoryStruct_run gen po lang tm k).1.1 tm
      dirRest [] dir0
      [tm, (WriteContent_run gen lang dir0.1 dir0.2
        (chapterTopic (WriteStoryStruct_run gen po lang tm k).1.1 tm 1)
        (WriteStoryStruct_run gen po lang tm k).2).1]
      ("" ++ "# " ++ (WriteStoryStruct_run gen po lang tm k).1.1 ++ "\n\n\n" ++
        (WriteContent_run gen lang dir0.1 dir0.2
          (chapterTopic (WriteStoryStruct_run gen po lang tm k).1.1 tm 1)
          (WriteStoryStruct_run gen po lang tm k).2).1)
      (WriteContent_run gen lang dir0.1 dir0.2
        (chapterTopic (WriteStoryStruct_run gen po lang tm k).1.1 tm 1)
        (WriteStoryStruct_run gen po lang tm k).2).2
      [(GTask.outline lang, tm,
        dirSummary (WriteStoryStruct_run gen po lang tm k).1.1 (dir0 :: dirRest)),
       (GTask.chapter lang dir0.1 dir0.2,
        chapterTopic (WriteStoryStruct_run gen po lang tm k).1.1 tm 1,
        (WriteContent_run gen lang dir0.1 dir0.2
          (chapterTopic (WriteStoryStruct_run gen po lang tm k).1.1 tm 1)
          (WriteStoryStruct_run gen po lang tm k).2).1)]
      (append3_ne_empty _ "\n\n\n" _ (by decide))
  exact ⟨stf, heq, hmem, hact, htodo, hmt⟩

/-- `chaptersRun` produces exactly one trace entry per directory entry. -/
theorem chaptersRun_length (gen : Gen) (lang mt : String) :
    ∀ (dir : List (String × String)) (prev : String) (cc k : Nat),
      (chaptersRun gen lang mt dir prev cc k).1.length = dir.length := by
  intro dir
  induction dir with
  | nil => intro prev cc k; rfl
  | cons p rest ih => intro prev cc k; simp [chaptersRun, ih]

/-- The tasks of the `chaptersRun` trace are the chapter tasks of the
directory, in directory order. -/
theorem chaptersRun_tasks (gen : Gen) (lang mt : String) :
    ∀ (dir : List (String × String)) (prev : String) (cc k : Nat),
      (chaptersRun gen lang mt dir prev cc k).1.map (fun e => e.1)
        = dir.map (fun p => GTask.chapter lang p.1 p.2) := by
  intro dir
  induction dir with
  | nil => intro prev cc k; rfl
  | cons p rest ih => intro prev cc k; simp [chaptersRun, ih]

/-- The first chapter executed by `chaptersRun` is the first directory entry
and receives `chapterTopic mt prev cc` as its topic. -/
theorem chaptersRun_head (gen : Gen) (lang mt : String)
    (dir : List (String × String)) (prev : String) (cc k : Nat) (h : dir ≠ []) :
    ((chaptersRun gen lang mt dir prev cc k).1.getD 0 trDflt).1
        = GTask.chapter lang (dir.getD 0 ("", "")).1 (dir.getD 0 ("", "")).2
    ∧ ((chaptersRun gen lang mt dir prev cc k).1.getD 0 trDflt).2.1
        = chapterTopic mt prev cc := by
  cases dir with
  | nil => exact absurd rfl h
  | cons p rest => exact ⟨rfl, rfl⟩

/-- Every message produced by `chaptersRun` is the corresponding chapter
heading, formatted as a section marker, followed by a blank line and the
body returned by the retry loop. -/
theorem chaptersRun_entry_format (gen : Gen) (lang mt : String) :
    ∀ (dir : List (String × String)) (prev : String) (cc k i : Nat),
      i < dir.length →
      ∃ body, ((chaptersRun gen lang mt dir prev cc k).1.getD i trDflt).2.2
        = "## " ++ (dir.getD i ("", "")).1 ++ "\n\n" ++ body := by
  intro dir
  induction dir with
  | nil => intro prev cc k i h; simp at h
  | cons p rest ih =>
    intro prev cc k i h
    cases i with
    | zero =>
      exact ⟨(writeContent_go gen
        (CONTENT_PROMPT_fmt (chapterTopic mt prev cc) lang p.2) 4 k).1, rfl⟩
    | succ j =>
      have hj : j < rest.length := by simpa using Nat.lt_of_succ_lt_succ h
      obtain ⟨body, hb⟩ := ih
        (WriteContent_run gen lang p.1 p.2 (chapterTopic mt prev cc) k).1 (cc + 1)
        (WriteContent_run gen lang p.1 p.2 (chapterTopic mt prev cc) k).2 j hj
      exact ⟨body, by simpa [chaptersRun, List.getD_cons_succ] using hb⟩

/-- Each later chapter of `chaptersRun` receives as its topic the
`chapterTopic` computation applied to the message produced by the
immediately preceding chapter. -/
theorem chaptersRun_chain (gen : Gen) (lang mt : String) :
    ∀ (dir : List (String × String)) (prev : String) (cc k i : Nat),
      i + 1 < dir.length →
      ((chaptersRun gen lang mt dir prev cc k).1.getD (i + 1) trDflt).2.1
        = chapterTopic mt (((chaptersRun gen lang mt dir prev cc k).1.getD i trDflt).2.2)
            (cc + (i + 1)) := by
  intro dir
  induction dir with
  | nil => intro prev cc k i h; simp at h
  | cons p rest ih =>
    intro prev cc k i h
    cases i with
    | zero =>
      have hne : rest ≠ [] := by
        intro hh
        rw [hh] at h
        simp at h
      have := (chaptersRun_head gen lang mt rest
        (WriteContent_run gen lang p.1 p.2 (chapterTopic mt prev cc) k).1 (cc + 1)
        (WriteContent_run gen lang p.1 p.2 (chapterTopic mt prev cc) k).2 hne).2
      simpa [chaptersRun, List.getD_cons_succ, List.getD_cons_zero] using this
    | succ j =>
      have hj : j + 1 < rest.length := by simpa using Nat.lt_of_succ_lt_succ h
      have := ih
        (WriteContent_run gen lang p.1 p.2 (chapterTopic mt prev cc) k).1 (cc + 1)
        (WriteContent_run gen lang p.1 p.2 (chapterTopic mt prev cc) k).2 j hj
      simpa [chaptersRun, List.getD_cons_succ, Nat.add_assoc, Nat.add_comm, Nat.add_left_comm]
        using this

/-- For a chapter counter above 1, `chapterTopic` is the truncation rule
applied to the previous entry. -/
theorem chapterTopic_pos (mt prev : String) (cc : Nat) (h : 1 < cc) :
    chapterTopic mt prev cc
      = if prev.length > 100 then pyNegIndex prev 100 else prev := by
  simp [chapterTopic, h]

/-- C5: in every run (with a nonempty parsed directory), the executed-task
trace is exactly one outline task first, followed by one chapter task per
directory entry in the directory's declared order; the final action list is
the chapter list installed (once) by `_handle_directory` and the run
terminates with the selection cleared (the cursor was reset via
`todo := none` and `_set_state 0`, so the replaced list ran from its first
element — which is what the trace equality records). -/
theorem claim_C5 (gen : Gen) (po : String → String × List (String × String))
    (lang tm : String) (k : Nat)
    (hdir : (WriteStoryStruct_run gen po lang tm k).1.2 ≠ []) :
    ∃ stf tr kf, fullRun gen po lang tm k = some (stf, tr, kf)
      ∧ tr.map (fun e => e.1)
          = GTask.outline lang
            :: (WriteStoryStruct_run gen po lang tm k).1.2.map
                (fun p => GTask.chapter lang p.1 p.2)
      ∧ stf.actions = (WriteStoryStruct_run gen po lang tm k).1.2.map
          (fun p => GTask.chapter lang p.1 p.2)
      ∧ stf.todo = none := by
  obtain ⟨stf, heq, hmem, hact, htodo, hmt⟩ := reactLoop_run gen po lang tm k hdir
  refine ⟨stf, _, _, heq, ?_, hact, htodo⟩
  simp only [List.map_cons, runChapters, outlineDir, outlineOf]
  rw [chaptersRun_tasks]

/-- C7: in every run (with a nonempty parsed directory), the context passed
to the first chapter task executed equals the outline's main title — not a
memory entry and not any prior chapter content (the trace records the exact
`topic` argument given to the task's `run`). -/
theorem claim_C7 (gen : Gen) (po : String → String × List (String × String))
    (lang tm : String) (k : Nat)
    (hdir : (WriteStoryStruct_run gen po lang tm k).1.2 ≠ []) :
    ∃ stf tr kf, fullRun gen po lang tm k = some (stf, tr, kf)
      ∧ (tr.getD 1 trDflt).1
          = GTask.chapter lang ((WriteStoryStruct_run gen po lang tm k).1.2.getD 0 ("", "")).1
              ((WriteStoryStruct_run gen po lang tm k).1.2.getD 0 ("", "")).2
      ∧ (tr.getD 1 trDflt).2.1 = (WriteStoryStruct_run gen po lang tm k).1.1 := by
  obtain ⟨stf, heq, hmem, hact, htodo, hmt⟩ := reactLoop_run gen po lang tm k hdir
  refine ⟨stf, _, _, heq, ?_, ?_⟩
  · rw [List.getD_cons_succ]
    exact (chaptersRun_head gen lang (WriteStoryStruct_run gen po lang tm k).1.1
      (WriteStoryStruct_run gen po lang tm k).1.2 tm 1
      (WriteStoryStruct_run gen po lang tm k).2 hdir).1
  · rw [List.getD_cons_succ]
    exact (chaptersRun_head gen lang (WriteStoryStruct_run gen po lang tm k).1.1
      (WriteStoryStruct_run gen po lang tm k).1.2 tm 1
      (WriteStoryStruct_run gen po lang tm k).2 hdir).2

/-- C9: in every run (with a nonempty parsed directory), memory is only
ever appended to, and the run-loop appends exactly one entry per executed
chapter task and none for the outline task (whose directory summary is
returned without `memory.add`): the final memory is the initial topic
message followed by exactly the chapter messages, whose count equals the
number of directory entries. -/
theorem claim_C9 (gen : Gen) (po : String → String × List (String × String))
    (lang tm : String) (k : Nat)
    (hdir : (WriteStoryStruct_run gen po lang tm k).1.2 ≠ []) :
    ∃ stf kf, fullRun gen po lang tm k
        = some (stf,
            (GTask.outline lang, tm,
              dirSummary (WriteStoryStruct_run gen po lang tm k).1.1
                (WriteStoryStruct_run gen po lang tm k).1.2)
              :: (runChapters gen po lang tm k).1,
            kf)
      ∧ stf.memory = tm :: (runChapters gen po lang tm k).1.map (fun e => e.2.2)
      ∧ ((runChapters gen po lang tm k).1.map (fun e => e.2.2)).length
          = (WriteStoryStruct_run gen po lang tm k).1.2.length := by
  obtain ⟨stf, heq, hmem, hact, htodo, hmt⟩ := reactLoop_run gen po lang tm k hdir
  refine ⟨stf, _, heq, hmem, ?_⟩
  simp only [List.length_map, runChapters, outlineDir, outlineOf]
  rw [chaptersRun_length]

/-- C10: in every run (with a nonempty parsed directory), every entry the
run-loop appends to memory is the formatted chapter output
`"## " ++ heading ++ "\n\n" ++ body` for the corresponding directory
heading, and the topic handed to each subsequent chapter is the truncation
rule of `_act` applied to that heading-prefixed entry (not to the raw
generated body): its length test and character indexing read the formatted
message. -/
theorem claim_C10 (gen : Gen) (po : String → String × List (String × String))
    (lang tm : String) (k : Nat)
    (hdir : (WriteStoryStruct_run gen po lang tm k).1.2 ≠ []) :
    ∃ stf kf, fullRun gen po lang tm k
        = some (stf,
            (GTask.outline lang, tm,
              dirSummary (WriteStoryStruct_run gen po lang tm k).1.1
                (WriteStoryStruct_run gen po lang tm k).1.2)
              :: (runChapters gen po lang tm k).1,
            kf)
      ∧ stf.memory = tm :: (runChapters gen po lang tm k).1.map (fun e => e.2.2)
      ∧ (∀ i, i < (WriteStoryStruct_run gen po lang tm k).1.2.length →
          ∃ body, ((runChapters gen po lang tm k).1.getD i trDflt).2.2
            = "## " ++ ((WriteStoryStruct_run gen po lang tm k).1.2.getD i ("", "")).1
                ++ "\n\n" ++ body)
      ∧ (∀ i, i + 1 < (WriteStoryStruct_run gen po lang tm k).1.2.length →
          ((runChapters gen po lang tm k).1.getD (i + 1) trDflt).2.1
            = if (((runChapters gen po lang tm k).1.getD i trDflt).2.2).length > 100
              then pyNegIndex (((runChapters gen po lang tm k).1.getD i trDflt).2.2) 100
              else ((runChapters gen po lang tm k).1.getD i trDflt).2.2) := by
  obtain ⟨stf, heq, hmem, hact, htodo, hmt⟩ := reactLoop_run gen po lang tm k hdir
  refine ⟨stf, _, heq, hmem, ?_, ?_⟩
  · intro i hi
    exact chaptersRun_entry_format gen lang (WriteStoryStruct_run gen po lang tm k).1.1
      (WriteStoryStruct_run gen po lang tm k).1.2 tm 1
      (WriteStoryStruct_run gen po lang tm k).2 i hi
  · intro i hi
    have hch := chaptersRun_chain gen lang (WriteStoryStruct_run gen po lang tm k).1.1
      (WriteStoryStruct_run gen po lang tm k).1.2 tm 1
      (WriteStoryStruct_run gen po lang tm k).2 i hi
    rw [show runChapters gen po lang tm k
        = chaptersRun gen lang (WriteStoryStruct_run gen po lang tm k).1.1
            (WriteStoryStruct_run gen po lang tm k).1.2 tm 1
            (WriteStoryStruct_run gen po lang tm k).2 from rfl]
    rw [hch]
    exact chapterTopic_pos _ _ _ (by omega)

/-- Witness for C5 at a concrete generator and a concrete two-chapter
directory. -/
theorem claim_C5_witness :
    (WriteStoryStruct_run genB poDemo "Chinese" "游戏" 0).1.2 ≠ []
    ∧ (∃ stf tr kf, fullRun genB poDemo "Chinese" "游戏" 0 = some (stf, tr, kf)
        ∧ tr.map (fun e => e.1)
            = GTask.outline "Chinese"
              :: (WriteStoryStruct_run genB poDemo "Chinese" "游戏" 0).1.2.map
                  (fun p => GTask.chapter "Chinese" p.1 p.2)
        ∧ stf.actions = (WriteStoryStruct_run genB poDemo "Chinese" "游戏" 0).1.2.map
            (fun p => GTask.chapter "Chinese" p.1 p.2)
        ∧ stf.todo = none) :=
  ⟨by decide, claim_C5 genB poDemo "Chinese" "游戏" 0 (by decide)⟩

/-- Witness for C7 at a concrete generator and a concrete two-chapter
directory. -/
theorem claim_C7_witness :
    (WriteStoryStruct_run genB poDemo "Chinese" "游戏" 0).1.2 ≠ []
    ∧ (∃ stf tr kf, fullRun genB poDemo "Chinese" "游戏" 0 = some (stf, tr, kf)
        ∧ (tr.getD 1 trDflt).1
            = GTask.chapter "Chinese"
                ((WriteStoryStruct_run genB poDemo "Chinese" "游戏" 0).1.2.getD 0 ("", "")).1
                ((WriteStoryStruct_run genB poDemo "Chinese" "游戏" 0).1.2.getD 0 ("", "")).2
        ∧ (tr.getD 1 trDflt).2.1 = (WriteStoryStruct_run genB poDemo "Chinese" "游戏" 0).1.1) :=
  ⟨by decide, claim_C7 genB poDemo "Chinese" "游戏" 0 (by decide)⟩

/-- Witness for C9 at a concrete generator and a concrete two-chapter
directory. -/
theorem claim_C9_witness :
    (WriteStoryStruct_run genB poDemo "Chinese" "游戏" 0).1.2 ≠ []
    ∧ (∃ stf kf, fullRun genB poDemo "Chinese" "游戏" 0
          = some (stf,
              (GTask.outline "Chinese", "游戏",
                dirSummary (WriteStoryStruct_run genB poDemo "Chinese" "游戏" 0).1.1
                  (WriteStoryStruct_run genB poDemo "Chinese" "游戏" 0).1.2)
                :: (runChapters genB poDemo "Chinese" "游戏" 0).1,
              kf)
        ∧ stf.memory = "游戏" :: (runChapters genB poDemo "Chinese" "游戏" 0).1.map (fun e => e.2.2)
        ∧ ((runChapters genB poDemo "Chinese" "游戏" 0).1.map (fun e => e.2.2)).length
            = (WriteStoryStruct_run genB poDemo "Chinese" "游戏" 0).1.2.length) :=
  ⟨by decide, claim_C9 genB poDemo "Chinese" "游戏" 0 (by decide)⟩

/-- Witness for C10 at a concrete generator and a concrete two-chapter
directory. -/
theorem claim_C10_witness :
    (WriteStoryStruct_run genB poDemo "Chinese" "游戏" 0).1.2 ≠ []
    ∧ (∃ stf kf, fullRun genB poDemo "Chinese" "游戏" 0
          = some (stf,
              (GTask.outline "Chinese", "游戏",
                dirSummary (WriteStoryStruct_run genB poDemo "Chinese" "游戏" 0).1.1
                  (WriteStoryStruct_run genB poDemo "Chinese" "游戏" 0).1.2)
                :: (runChapters genB poDemo "Chinese" "游戏" 0).1,
              kf)
        ∧ stf.memory = "游戏" :: (runChapters genB poDemo "Chinese" "游戏" 0).1.map (fun e => e.2.2)
        ∧ (∀ i, i < (WriteStoryStruct_run genB poDemo "Chinese" "游戏" 0).1.2.length →
            ∃ body, ((runChapters genB poDemo "Chinese" "游戏" 0).1.getD i trDflt).2.2
              = "## " ++ ((WriteStoryStruct_run genB poDemo "Chinese" "游戏" 0).1.2.getD i ("", "")).1
                  ++ "\n\n" ++ body)
        ∧ (∀ i, i + 1 < (WriteStoryStruct_run genB poDemo "Chinese" "游戏" 0).1.2.length →
            ((runChapters genB poDemo "Chinese" "游戏" 0).1.getD (i + 1) trDflt).2.1
              = if (((runChapters genB poDemo "Chinese" "游戏" 0).1.getD i trDflt).2.2).length > 100
                then pyNegIndex (((runChapters genB poDemo "Chinese" "游戏" 0).1.getD i trDflt).2.2) 100
                else ((runChapters genB poDemo "Chinese" "游戏" 0).1.getD i trDflt).2.2)) :=
  ⟨by decide, claim_C10 genB poDemo "Chinese" "游戏" 0 (by decide)⟩
